import Mathlib

/-!
# Verification of `server/routes/users.js`

A shallow embedding of the two route handlers of `server/routes/users.js`
(`GET api/auth` and `POST api/user`) and of the `validInputs` validator array.

The handlers are effectful JavaScript.  They are embedded as pure functions that
take the user store and the behaviour of each collaborator (validator library,
database driver, bcrypt, config, jsonwebtoken) on this request, and return the
response that was sent (if any), the store afterwards, and the ordered trace of
collaborator calls that were made.
-/

namespace Users

/-! ## Data model -/

/-- JSON values, as passed to `response.json`. -/
inductive JsonValue where
  | null : JsonValue
  | str (s : String) : JsonValue
  | num (n : Nat) : JsonValue
  | arr (items : List JsonValue) : JsonValue
  | obj (fields : List (String × JsonValue)) : JsonValue

/-- What a handler hands to the response object: `response.json(v)` sends a JSON
value, `response.send("...")` with a string sends plain text. -/
inductive Body where
  | json (j : JsonValue) : Body
  | text (s : String) : Body

/-- An HTTP response: status code (200 unless `status(n)` was called) and body. -/
structure Response where
  status : Nat
  body : Body

/-- Modelled from the spec: the `User` model (`models/User.js`) is not among the
sources.  Per the data model a user record carries `name`, `email` and `password`
together with its identity; a record is kept as its list of fields, the identity
under the key `_id`. -/
abbrev Doc := List (String × String)

/-- The user collection. -/
abbrev Store := List Doc

/-- The token payload `{ user: { id } }`. -/
structure Payload where
  userId : String
deriving DecidableEq

/-- The body `{ name, email, password }` of a `POST api/user` request.  The field
values are strings (the validators see every field as a string), and the three
fields occur in the body only, not in the query, parameters, headers or cookies. -/
structure RegisterRequest where
  name : String
  email : String
  password : String
deriving DecidableEq

/-- One entry of `errors.array()`: a field error with the offending value, the
message of its chain, the path of the field and the location it was read from. -/
structure ValidationError where
  value : String
  msg : String
  path : String
  location : String
deriving DecidableEq

/-- How `jwt.sign(payload, secret, options, callback)` reports back.  The callback
receives the token, or an error.  An error found while checking the arguments is
passed to the callback before `jwt.sign` returns; an error raised by the signer
itself is passed to the callback later, after the handler's `try` block has been
left. -/
inductive SignOutcome where
  | token (t : String) : SignOutcome
  | errorSync (err : String) : SignOutcome
  | errorAsync (err : String) : SignOutcome
deriving DecidableEq

/-- Behaviour of the collaborators of the registration handler on one request.
A rejected promise or a thrown exception is `Except.error` (or `some err`). -/
structure Collaborators where
  /-- Validator `isEmail` of the validation library. -/
  isEmail : String → Bool
  /-- When `some err`, `User.findOne` rejects with `err`. -/
  findOneError : Option String
  /-- The identity given to the document built by `new User(...)`. -/
  newId : String
  /-- Result of `bcrypt.genSalt(rounds)`. -/
  genSalt : Nat → Except String String
  /-- Result of `bcrypt.hash(password, salt)`. -/
  hash : String → String → Except String String
  /-- When `some err`, `user.save()` rejects with `err` and stores nothing. -/
  saveError : Option String
  /-- Result of `config.get("jwtSecret")`. -/
  jwtSecret : Except String String
  /-- Result of `jwt.sign(payload, secret, { expiresIn }, callback)`. -/
  sign : Payload → String → Nat → SignOutcome

/-- Collaborator calls, in the order a handler makes them. -/
inductive Call where
  | findById (id : String) : Call
  | findOne (email : String) : Call
  | genSalt (rounds : Nat) : Call
  | hash (password salt : String) : Call
  | save (doc : Doc) : Call
  | configGet (key : String) : Call
  | sign (payload : Payload) (secret : String) (expiresIn : Nat) : Call
  | consoleError (err : String) : Call
deriving DecidableEq

/-- What one run of a handler did: the response sent (`none` when no response was
sent), the user store afterwards, the calls made, and the exception that escaped
the handler, if any. -/
structure Outcome where
  response : Option Response
  store : Store
  calls : List Call
  uncaught : Option String

/-! ## Database queries -/

/-- Query `User.findById(id)`: the first record whose `_id` is `id`, if any. -/
def findById (store : Store) (id : String) : Option Doc :=
  store.find? (fun d => d.lookup "_id" == some id)

/-- Query `User.findOne({ email })`: the first record whose `email` is `email`, if any. -/
def findOne (store : Store) (email : String) : Option Doc :=
  store.find? (fun d => d.lookup "email" == some email)

/-- Projection `.select("-password")`: every field except `password`. -/
def selectMinusPassword (d : Doc) : Doc :=
  d.filter (fun kv => kv.1 != "password")

/-- Rendering of a record by `response.json`. -/
def docToJson (d : Doc) : JsonValue :=
  .obj (d.map (fun kv => (kv.1, JsonValue.str kv.2)))

/-! ## `GET api/auth` -/

/-- The handler of `router.get("/", auth, ...)`.  `reqUserId` is `req.user.id` as
attached by the `auth` middleware; `findByIdError` is `some err` when the lookup
rejects with `err`. -/
def getHandler (findByIdError : Option String) (store : Store) (reqUserId : String) :
    Outcome :=
  match findByIdError with
  | some err =>
    -- catch (err) { console.error(err); response.status(500).send("Server error"); }
    { response := some ⟨500, .text "Server error"⟩, store := store,
      calls := [.findById reqUserId, .consoleError err], uncaught := none }
  | none =>
    match findById store reqUserId with
    | some user =>
      { response := some ⟨200, .json (docToJson (selectMinusPassword user))⟩,
        store := store, calls := [.findById reqUserId], uncaught := none }
    | none =>
      { response := some ⟨200, .json .null⟩, store := store,
        calls := [.findById reqUserId], uncaught := none }

/-! ## `validInputs` -/

/-- The variation selectors U+FE0E and U+FE0F, which `isLength` leaves out of its
count. -/
def isVariationSelector (ch : Char) : Bool :=
  ch.toNat == 0xFE0E || ch.toNat == 0xFE0F

/-- The length that `isLength` measures: the number of UTF-16 code units, minus one
for every surrogate pair (which leaves the number of code points), minus one for
every variation selector U+FE0E or U+FE0F. -/
def validatorLength (s : String) : Nat :=
  s.length - (s.data.filter isVariationSelector).length

/-- Validator `isLength({ min, max })`: the measured length of the string lies in
the range (`min` defaults to 0, no upper bound when `max` is absent). -/
def isLength (min : Nat) (max : Option Nat) (s : String) : Bool :=
  decide (min ≤ validatorLength s) &&
    (match max with
     | none => true
     | some m => decide (validatorLength s ≤ m))

/-- Validator `isEmpty()`: the string has length 0 (every code unit counts). -/
def isEmpty (s : String) : Bool :=
  s.length == 0

/-- One `check(field, message)` chain run on the value of its field: each
validator of the chain that fails adds an error carrying the chain's message. -/
def runChain (field message : String) (validators : List (String → Bool))
    (value : String) : List ValidationError :=
  (validators.filter (fun v => !v value)).map
    (fun _ => { value := value, msg := message, path := field, location := "body" })

/-- The array `validInputs`: one `check` chain per field of the request body. -/
def validInputs (isEmail : String → Bool) : List (RegisterRequest → List ValidationError) :=
  [fun req => runChain "name" "Name is required to create an account"
      [isLength 0 (some 30), fun s => !isEmpty s] req.name,
   fun req => runChain "email" "Please include a valid email" [isEmail] req.email,
   fun req => runChain "password" "Please include a password with minimum 8 chars"
      [isLength 8 none] req.password]

/-- The errors found by the chains of `validInputs`, in order, i.e.
`validationResult(req).array()`. -/
def validationResult (isEmail : String → Bool) (req : RegisterRequest) :
    List ValidationError :=
  (validInputs isEmail).foldr (fun chain errors => chain req ++ errors) []

/-- Rendering of one validation error in the response body:
`{ type: "field", value, msg, path, location }`. -/
def ValidationError.toJson (e : ValidationError) : JsonValue :=
  .obj [("type", .str "field"), ("value", .str e.value), ("msg", .str e.msg),
        ("path", .str e.path), ("location", .str e.location)]

/-! ## `POST api/user` -/

/-- The `catch (err)` block of the registration handler:
`console.error(err); response.status(500).json({ msg: ... })`. -/
def serverError (store : Store) (calls : List Call) (err : String) : Outcome :=
  { response := some ⟨500, .json (.obj [("msg", .str "Something is wrong with the server")])⟩,
    store := store, calls := calls ++ [.consoleError err], uncaught := none }

/-- The `try` block of the registration handler (steps 1 to 6). -/
def saveInfo (c : Collaborators) (store : Store) (req : RegisterRequest) : Outcome :=
  -- const existUser = await User.findOne({ email });
  let t1 := [Call.findOne req.email]
  match c.findOneError with
  | some err => serverError store t1 err
  | none =>
    match findOne store req.email with
    | some _ =>
      { response := some ⟨400, .json (.obj [("msg", .str "User already exists!")])⟩,
        store := store, calls := t1, uncaught := none }
    | none =>
      -- const salt = await bcrypt.genSalt(10);
      let t2 := t1 ++ [.genSalt 10]
      match c.genSalt 10 with
      | .error err => serverError store t2 err
      | .ok salt =>
        -- user.password = await bcrypt.hash(password, salt);
        let t3 := t2 ++ [.hash req.password salt]
        match c.hash req.password salt with
        | .error err => serverError store t3 err
        | .ok hashed =>
          let user : Doc :=
            [("_id", c.newId), ("name", req.name), ("email", req.email), ("password", hashed)]
          -- await user.save();
          let t4 := t3 ++ [.save user]
          match c.saveError with
          | some err => serverError store t4 err
          | none =>
            let saved := store ++ [user]
            -- let payload = { user: { id: user.id } };
            let payload : Payload := { userId := c.newId }
            -- jwt.sign(payload, config.get("jwtSecret"), { expiresIn: 86400 }, callback)
            let t5 := t4 ++ [.configGet "jwtSecret"]
            match c.jwtSecret with
            | .error err => serverError saved t5 err
            | .ok secret =>
              let t6 := t5 ++ [.sign payload secret 86400]
              match c.sign payload secret 86400 with
              | .token token =>
                { response := some ⟨200, .json (.obj
                    [("msg", .str "user registered successfully"), ("token", .str token)])⟩,
                  store := saved, calls := t6, uncaught := none }
              | .errorSync _ =>
                -- the callback throws inside `jwt.sign`, inside the `try` block
                serverError saved t6 "something went wrong"
              | .errorAsync _ =>
                -- the callback throws after the `try` block has been left
                { response := none, store := saved, calls := t6,
                  uncaught := some "something went wrong" }

/-- The handler of `router.post("/", validInputs, ...)`. -/
def postHandler (c : Collaborators) (store : Store) (req : RegisterRequest) : Outcome :=
  let errors := validationResult c.isEmail req
  if !errors.isEmpty then
    { response := some ⟨400, .json (.obj [("errors", .arr (errors.map ValidationError.toJson))])⟩,
      store := store, calls := [], uncaught := none }
  else
    saveInfo c store req

/-! ## Vocabulary of the specification -/

/-- The three field rules of the registration contract, with lengths as `isLength`
measures them: the name is non-empty and at most 30 long, the email is well formed,
the password is at least 8 long. -/
def ValidInput (isEmail : String → Bool) (req : RegisterRequest) : Prop :=
  (req.name ≠ "" ∧ validatorLength req.name ≤ 30) ∧ isEmail req.email = true ∧
    8 ≤ validatorLength req.password

/-- The JSON of the error entry of a field, as the response body carries it. -/
def errorEntry (value message field : String) : JsonValue :=
  .obj [("type", .str "field"), ("value", .str value), ("msg", .str message),
        ("path", .str field), ("location", .str "body")]

/-- Every collaborator of the registration handler succeeds on this request. -/
def Succeeds (c : Collaborators) (req : RegisterRequest) : Prop :=
  c.findOneError = none ∧
  (∃ salt hashed, c.genSalt 10 = .ok salt ∧ c.hash req.password salt = .ok hashed) ∧
  c.saveError = none ∧
  ∃ secret token, c.jwtSecret = .ok secret ∧
    c.sign { userId := c.newId } secret 86400 = .token token

/-- The record built and saved by a registration whose password hashes to `hashed`. -/
def newUser (c : Collaborators) (req : RegisterRequest) (hashed : String) : Doc :=
  [("_id", c.newId), ("name", req.name), ("email", req.email), ("password", hashed)]

/-- The number of records of the store that carry this email. -/
def countEmail (store : Store) (email : String) : Nat :=
  (store.filter (fun d => d.lookup "email" == some email)).length

/-! ## Sample data for concrete runs -/

/-- A stand-in for the email validator: the string contains an `@`. -/
def sampleIsEmail (s : String) : Bool :=
  s.data.contains '@'

/-- Collaborators that all succeed. -/
def sampleCollaborators : Collaborators :=
  { isEmail := sampleIsEmail
    findOneError := none
    newId := "6501"
    genSalt := fun _ => .ok "$2a$10$salt"
    hash := fun password salt => .ok (salt ++ "#" ++ password)
    saveError := none
    jwtSecret := .ok "secret"
    sign := fun payload secret _ => .token (payload.userId ++ "." ++ secret) }

/-- The request of the specification's example. -/
def shortPasswordRequest : RegisterRequest :=
  { name := "Al", email := "al@x.com", password := "short" }

/-- A request at the boundary of the field rules: a name of exactly 30 characters and
a password of exactly 8 characters. -/
def boundaryRequest : RegisterRequest :=
  { name := "Alexandria Cassiopeia Montague", email := "al@x.com", password := "12345678" }

/-- A request whose name has 31 code points, the last one a variation selector: 30
letters followed by U+FE0F. -/
def selectorNameRequest : RegisterRequest :=
  { name := "Alexandria Cassiopeia Montague\uFE0F", email := "al@x.com",
    password := "longenough" }

/-- A request whose password has 8 code points, the last one a variation selector:
7 digits followed by U+FE0F. -/
def selectorPasswordRequest : RegisterRequest :=
  { name := "Al", email := "al@x.com", password := "1234567\uFE0F" }

/-- A request that satisfies the field rules. -/
def validRequest : RegisterRequest :=
  { name := "Al", email := "al@x.com", password := "longenough" }

/-- Collaborators whose signer reports an error to the callback after `jwt.sign` has
returned; everything else succeeds. -/
def signerFails : Collaborators :=
  { sampleCollaborators with sign := fun _ _ _ => .errorAsync "secret must be a string" }

/-- Collaborators for which `config.get("jwtSecret")` throws; everything else
succeeds. -/
def secretMissing : Collaborators :=
  { sampleCollaborators with
    jwtSecret := .error "Configuration property jwtSecret is not defined" }

/-- Collaborators for which `user.save()` rejects; everything before it succeeds. -/
def saveFails : Collaborators :=
  { sampleCollaborators with saveError := some "connection lost" }

/-- A store with two users. -/
def sampleStore : Store :=
  [[("_id", "6501"), ("name", "Al"), ("email", "al@x.com"), ("password", "$2a$10$h1")],
   [("_id", "6502"), ("name", "Bo"), ("email", "bo@x.com"), ("password", "$2a$10$h2")]]

/-- A valid request whose email is not in `sampleStore`. -/
def newcomerRequest : RegisterRequest :=
  { name := "Cy", email := "cy@x.com", password := "longenough" }

/-! ## Validation -/

theorem length_eq_zero_iff (s : String) : s.length = 0 ↔ s = "" := by
  constructor
  · intro h
    have : s.data = [] := List.length_eq_zero.mp h
    exact String.ext this
  · rintro rfl
    rfl

theorem runChain_eq_nil_iff (field message : String) (vs : List (String → Bool))
    (value : String) :
    runChain field message vs value = [] ↔ ∀ v ∈ vs, v value = true := by
  simp [runChain, List.filter_eq_nil_iff]

theorem mem_runChain (field message : String) (vs : List (String → Bool)) (value : String)
    (e : ValidationError) :
    e ∈ runChain field message vs value ↔
      (∃ v ∈ vs, v value = false) ∧ e = ⟨value, message, field, "body"⟩ := by
  simp only [runChain, List.mem_map, List.mem_filter]
  constructor
  · rintro ⟨v, ⟨hv, hf⟩, rfl⟩
    exact ⟨⟨v, hv, by simpa using hf⟩, rfl⟩
  · rintro ⟨⟨v, hv, hf⟩, rfl⟩
    exact ⟨v, ⟨hv, by simp [hf]⟩, rfl⟩

theorem validationResult_eq (isEmail : String → Bool) (req : RegisterRequest) :
    validationResult isEmail req =
      runChain "name" "Name is required to create an account"
        [isLength 0 (some 30), fun s => !isEmpty s] req.name ++
      runChain "email" "Please include a valid email" [isEmail] req.email ++
      runChain "password" "Please include a password with minimum 8 chars"
        [isLength 8 none] req.password := by
  simp [validationResult, validInputs]

theorem validationResult_eq_nil_iff (isEmail : String → Bool) (req : RegisterRequest) :
    validationResult isEmail req = [] ↔ ValidInput isEmail req := by
  simp only [validationResult_eq, List.append_eq_nil, runChain_eq_nil_iff, ValidInput]
  simp [isLength, isEmpty, length_eq_zero_iff]
  tauto

theorem postHandler_of_errors (c : Collaborators) (store : Store) (req : RegisterRequest)
    (h : validationResult c.isEmail req ≠ []) :
    postHandler c store req =
      { response := some ⟨400, .json (.obj [("errors",
          .arr ((validationResult c.isEmail req).map ValidationError.toJson))])⟩,
        store := store, calls := [], uncaught := none } := by
  unfold postHandler
  cases hv : validationResult c.isEmail req with
  | nil => exact absurd hv h
  | cons e es => simp

theorem postHandler_of_valid (c : Collaborators) (store : Store) (req : RegisterRequest)
    (h : validationResult c.isEmail req = []) :
    postHandler c store req = saveInfo c store req := by
  simp [postHandler, h]

/-! ## The `try` block -/

theorem saveInfo_calls_head (c : Collaborators) (store : Store) (req : RegisterRequest) :
    ∃ rest, (saveInfo c store req).calls = Call.findOne req.email :: rest := by
  unfold saveInfo
  repeat' split
  all_goals try dsimp only
  all_goals try split
  all_goals simp [serverError]

theorem saveInfo_response_ne_errors (c : Collaborators) (store : Store)
    (req : RegisterRequest) (errs : List JsonValue) :
    (saveInfo c store req).response ≠
      some ⟨400, .json (.obj [("errors", .arr errs)])⟩ := by
  unfold saveInfo
  repeat' split
  all_goals try dsimp only
  all_goals try split
  all_goals simp [serverError]

theorem saveInfo_success (c : Collaborators) (store : Store) (req : RegisterRequest)
    (salt hashed secret token : String)
    (hlookup : c.findOneError = none) (hfresh : findOne store req.email = none)
    (hsalt : c.genSalt 10 = .ok salt) (hhash : c.hash req.password salt = .ok hashed)
    (hsave : c.saveError = none) (hsecret : c.jwtSecret = .ok secret)
    (hsign : c.sign { userId := c.newId } secret 86400 = .token token) :
    saveInfo c store req =
      { response := some ⟨200, .json (.obj
          [("msg", .str "user registered successfully"), ("token", .str token)])⟩,
        store := store ++ [newUser c req hashed],
        calls := [.findOne req.email, .genSalt 10, .hash req.password salt,
          .save (newUser c req hashed), .configGet "jwtSecret",
          .sign { userId := c.newId } secret 86400],
        uncaught := none } := by
  simp [saveInfo, hlookup, hfresh, hsalt, hhash, hsave, hsecret, hsign, newUser]

theorem saveInfo_existing (c : Collaborators) (store : Store) (req : RegisterRequest)
    (found : Doc) (hlookup : c.findOneError = none)
    (hfound : findOne store req.email = some found) :
    saveInfo c store req =
      { response := some ⟨400, .json (.obj [("msg", .str "User already exists!")])⟩,
        store := store, calls := [.findOne req.email], uncaught := none } := by
  simp [saveInfo, hlookup, hfound]

theorem findOne_eq_none_iff (store : Store) (email : String) :
    findOne store email = none ↔ ∀ d ∈ store, d.lookup "email" ≠ some email := by
  simp [findOne, List.find?_eq_none]

theorem countEmail_eq_zero_iff (store : Store) (email : String) :
    countEmail store email = 0 ↔ ∀ d ∈ store, d.lookup "email" ≠ some email := by
  simp [countEmail, List.filter_eq_nil_iff]

theorem lookup_email_newUser (c : Collaborators) (req : RegisterRequest) (hashed : String) :
    (newUser c req hashed).lookup "email" = some req.email := by
  simp [newUser, List.lookup]

theorem findOne_append_newUser (c : Collaborators) (store : Store) (req : RegisterRequest)
    (hashed : String) (hfresh : findOne store req.email = none) :
    findOne (store ++ [newUser c req hashed]) req.email = some (newUser c req hashed) := by
  unfold findOne at hfresh ⊢
  rw [List.find?_append, hfresh]
  simp [lookup_email_newUser]

theorem countEmail_append_newUser (c : Collaborators) (store : Store)
    (req : RegisterRequest) (hashed : String) :
    countEmail (store ++ [newUser c req hashed]) req.email =
      countEmail store req.email + 1 := by
  simp [countEmail, List.filter_append, lookup_email_newUser]

/-! ## Claims about validation -/

/-- C1, counterexample: a name of 31 characters (30 letters followed by the
variation selector U+FE0F) is longer than 30 characters, yet the request is not
answered 400: `isLength` does not count the selector, the handler answers 200 and
the record is saved. -/
theorem selector_name_is_registered :
    30 < selectorNameRequest.name.length ∧
    (postHandler sampleCollaborators [] selectorNameRequest).response =
      some ⟨200, .json (.obj [("msg", .str "user registered successfully"),
        ("token", .str "6501.secret")])⟩ ∧
    (postHandler sampleCollaborators [] selectorNameRequest).store =
      [[("_id", "6501"), ("name", "Alexandria Cassiopeia Montague\uFE0F"),
        ("email", "al@x.com"), ("password", "$2a$10$salt#longenough")]] ∧
    Call.save [("_id", "6501"), ("name", "Alexandria Cassiopeia Montague\uFE0F"),
        ("email", "al@x.com"), ("password", "$2a$10$salt#longenough")] ∈
      (postHandler sampleCollaborators [] selectorNameRequest).calls :=
  ⟨by decide, rfl, rfl, by decide⟩

/-- C1, amended: lengths are taken as `isLength` measures them (code points, the
variation selectors U+FE0E and U+FE0F not counted).  A registration request whose
name is empty or longer than 30, whose email is not well formed, or whose password
is shorter than 8 is answered with status 400 and the body `{ errors }`; the list
holds the entries of the validation errors and, for every offending field, the entry
`{ type: "field", value, msg, path, location: "body" }` of that field; the store is
unchanged and no collaborator (`findOne`, `genSalt`, `hash`, `save`, `config.get`,
`sign`) is called. -/
theorem post_rejects_invalid_input (c : Collaborators) (store : Store)
    (req : RegisterRequest)
    (h : (req.name = "" ∨ 30 < validatorLength req.name) ∨ c.isEmail req.email = false ∨
      validatorLength req.password < 8) :
    ∃ entries : List JsonValue,
      (postHandler c store req).response =
        some ⟨400, .json (.obj [("errors", .arr entries)])⟩ ∧
      entries = (validationResult c.isEmail req).map ValidationError.toJson ∧
      ((req.name = "" ∨ 30 < validatorLength req.name) →
        errorEntry req.name "Name is required to create an account" "name" ∈ entries) ∧
      (c.isEmail req.email = false →
        errorEntry req.email "Please include a valid email" "email" ∈ entries) ∧
      (validatorLength req.password < 8 →
        errorEntry req.password "Please include a password with minimum 8 chars"
          "password" ∈ entries) ∧
      (postHandler c store req).store = store ∧
      (postHandler c store req).calls = [] := by
  have hne : validationResult c.isEmail req ≠ [] := by
    intro hnil
    obtain ⟨⟨hn0, hn30⟩, hemail, hpw⟩ := (validationResult_eq_nil_iff _ _).mp hnil
    rcases h with (h | h) | h | h
    · exact hn0 h
    · omega
    · simp [hemail] at h
    · omega
  refine ⟨(validationResult c.isEmail req).map ValidationError.toJson, ?_, rfl, ?_, ?_, ?_,
    ?_, ?_⟩
  · rw [postHandler_of_errors c store req hne]
  · intro hname
    refine List.mem_map.mpr ⟨⟨req.name, "Name is required to create an account", "name",
      "body"⟩, ?_, rfl⟩
    rw [validationResult_eq]
    refine List.mem_append_left _ (List.mem_append_left _ ((mem_runChain _ _ _ _ _).mpr
      ⟨?_, rfl⟩))
    rcases hname with h0 | h30
    · exact ⟨fun s => !isEmpty s, by simp, by simp [isEmpty, h0]⟩
    · exact ⟨isLength 0 (some 30), by simp, by simp [isLength, h30]⟩
  · intro hemail
    refine List.mem_map.mpr ⟨⟨req.email, "Please include a valid email", "email",
      "body"⟩, ?_, rfl⟩
    rw [validationResult_eq]
    exact List.mem_append_left _ (List.mem_append_right _ ((mem_runChain _ _ _ _ _).mpr
      ⟨⟨c.isEmail, by simp, hemail⟩, rfl⟩))
  · intro hpw
    refine List.mem_map.mpr ⟨⟨req.password,
      "Please include a password with minimum 8 chars", "password", "body"⟩, ?_, rfl⟩
    rw [validationResult_eq]
    exact List.mem_append_right _ ((mem_runChain _ _ _ _ _).mpr
      ⟨⟨isLength 8 none, by simp, by simp [isLength, hpw]⟩, rfl⟩)
  · rw [postHandler_of_errors c store req hne]
  · rw [postHandler_of_errors c store req hne]

/-- Witness for C1, the example of the specification: `{name: "Al", email: "al@x.com",
password: "short"}` is answered 400 with exactly one error entry, the one of the
password with its message about the minimum of 8 chars, and nothing is stored. -/
theorem post_rejects_invalid_input_witness :
    validatorLength shortPasswordRequest.password < 8 ∧
    (∃ entries : List JsonValue,
      (postHandler sampleCollaborators [] shortPasswordRequest).response =
        some ⟨400, .json (.obj [("errors", .arr entries)])⟩ ∧
      entries = [.obj [("type", .str "field"), ("value", .str "short"),
        ("msg", .str "Please include a password with minimum 8 chars"),
        ("path", .str "password"), ("location", .str "body")]] ∧
      JsonValue.obj [("type", .str "field"), ("value", .str "short"),
        ("msg", .str "Please include a password with minimum 8 chars"),
        ("path", .str "password"), ("location", .str "body")] ∈ entries ∧
      (postHandler sampleCollaborators [] shortPasswordRequest).store = [] ∧
      (postHandler sampleCollaborators [] shortPasswordRequest).calls = []) :=
  ⟨by decide,
    match post_rejects_invalid_input sampleCollaborators [] shortPasswordRequest
      (Or.inr (Or.inr (by decide))) with
    | ⟨entries, hresp, hentries, _, _, hpw, hstore, hcalls⟩ =>
      ⟨entries, hresp, hentries, hpw (by decide), hstore, hcalls⟩⟩

/-- C9, counterexample: the password `1234567` followed by the variation selector
U+FE0F has 8 characters, the name and email are in order, yet the validators report
an error and the handler answers 400 `{ errors }` without reaching the lookup:
`isLength` measures that password as 7 long. -/
theorem selector_password_is_rejected :
    (selectorPasswordRequest.name ≠ "" ∧ selectorPasswordRequest.name.length ≤ 30) ∧
    sampleCollaborators.isEmail selectorPasswordRequest.email = true ∧
    8 ≤ selectorPasswordRequest.password.length ∧
    validationResult sampleCollaborators.isEmail selectorPasswordRequest ≠ [] ∧
    (postHandler sampleCollaborators [] selectorPasswordRequest).response =
      some ⟨400, .json (.obj [("errors", .arr [.obj [("type", .str "field"),
        ("value", .str "1234567\uFE0F"),
        ("msg", .str "Please include a password with minimum 8 chars"),
        ("path", .str "password"), ("location", .str "body")]])])⟩ ∧
    (postHandler sampleCollaborators [] selectorPasswordRequest).calls = [] :=
  ⟨⟨by decide, by decide⟩, by decide, by decide, by decide, rfl, rfl⟩

/-- C9, amended: lengths are taken as `isLength` measures them (code points, the
variation selectors U+FE0E and U+FE0F not counted).  A registration request whose
name is non-empty and at most 30 long, whose email is well formed and whose password
is at least 8 long produces no validation error, so the handler runs its `try` block,
whose first action is the existing-user lookup; the validators report no error only
for such requests; and the handler answers with the 400 `{ errors }` response if and
only if one of these field rules is violated. -/
theorem post_accepts_valid_input (c : Collaborators) (store : Store)
    (req : RegisterRequest) :
    (ValidInput c.isEmail req →
      validationResult c.isEmail req = [] ∧
      postHandler c store req = saveInfo c store req ∧
      (postHandler c store req).calls.head? = some (Call.findOne req.email)) ∧
    (validationResult c.isEmail req = [] → ValidInput c.isEmail req) ∧
    ((∃ errs, (postHandler c store req).response =
        some ⟨400, .json (.obj [("errors", .arr errs)])⟩) ↔
      ¬ ValidInput c.isEmail req) := by
  refine ⟨?_, (validationResult_eq_nil_iff _ _).mp, ?_⟩
  · intro hv
    have hnil := (validationResult_eq_nil_iff _ _).mpr hv
    refine ⟨hnil, postHandler_of_valid c store req hnil, ?_⟩
    rw [postHandler_of_valid c store req hnil]
    obtain ⟨rest, hrest⟩ := saveInfo_calls_head c store req
    simp [hrest]
  · constructor
    · rintro ⟨errs, herrs⟩ hv
      have hnil := (validationResult_eq_nil_iff _ _).mpr hv
      rw [postHandler_of_valid c store req hnil] at herrs
      exact saveInfo_response_ne_errors c store req errs herrs
    · intro hv
      have hne : validationResult c.isEmail req ≠ [] :=
        fun hnil => hv ((validationResult_eq_nil_iff _ _).mp hnil)
      exact ⟨_, by rw [postHandler_of_errors c store req hne]⟩

/-- Witness for C9 at the boundary: a name measured exactly 30 long and a password
measured exactly 8 long pass validation and the handler goes on to the lookup. -/
theorem post_accepts_valid_input_witness :
    validatorLength boundaryRequest.name = 30 ∧
    validatorLength boundaryRequest.password = 8 ∧
    validationResult sampleCollaborators.isEmail boundaryRequest = [] ∧
    (postHandler sampleCollaborators [] boundaryRequest).calls.head? =
      some (Call.findOne "al@x.com") :=
  have h := (post_accepts_valid_input sampleCollaborators [] boundaryRequest).1
    ⟨⟨by decide, by decide⟩, by decide, by decide⟩
  ⟨by decide, by decide, h.1, h.2.2⟩

/-! ## Claims about registration -/

/-- C2: when a valid registration for an email that the store does not hold yet is
run and all collaborators succeed, a second valid registration with the same email
run on the resulting store is answered with status 400 and `{ msg: "User already
exists!" }`, does not call `save`, leaves the store as the first run left it, and the
store then holds exactly one record with that email. -/
theorem second_registration_rejected (c1 c2 : Collaborators) (store : Store)
    (req1 req2 : RegisterRequest)
    (hv1 : ValidInput c1.isEmail req1) (hv2 : ValidInput c2.isEmail req2)
    (hemail : req2.email = req1.email)
    (hfresh : ∀ d ∈ store, d.lookup "email" ≠ some req1.email)
    (h1 : Succeeds c1 req1) (h2 : Succeeds c2 req2) :
    (postHandler c2 (postHandler c1 store req1).store req2).response =
      some ⟨400, .json (.obj [("msg", .str "User already exists!")])⟩ ∧
    (∀ doc, Call.save doc ∉ (postHandler c2 (postHandler c1 store req1).store req2).calls) ∧
    (postHandler c2 (postHandler c1 store req1).store req2).store =
      (postHandler c1 store req1).store ∧
    countEmail (postHandler c2 (postHandler c1 store req1).store req2).store req1.email = 1 := by
  obtain ⟨hl1, ⟨salt, hashed, hsalt, hhash⟩, hsave, secret, token, hsecret, hsign⟩ := h1
  have hnone : findOne store req1.email = none := (findOne_eq_none_iff _ _).mpr hfresh
  have ho1 : postHandler c1 store req1 = _ :=
    (postHandler_of_valid c1 store req1 ((validationResult_eq_nil_iff _ _).mpr hv1)).trans
      (saveInfo_success c1 store req1 salt hashed secret token hl1 hnone hsalt hhash hsave
        hsecret hsign)
  have hfound : findOne (store ++ [newUser c1 req1 hashed]) req2.email =
      some (newUser c1 req1 hashed) := by
    rw [hemail]
    exact findOne_append_newUser c1 store req1 hashed hnone
  have ho2 : postHandler c2 (store ++ [newUser c1 req1 hashed]) req2 = _ :=
    (postHandler_of_valid c2 _ req2 ((validationResult_eq_nil_iff _ _).mpr hv2)).trans
      (saveInfo_existing c2 _ req2 _ h2.1 hfound)
  rw [ho1]
  simp only [ho2]
  refine ⟨trivial, ?_, trivial, ?_⟩
  · intro doc
    simp
  · rw [countEmail_append_newUser, (countEmail_eq_zero_iff _ _).mpr hfresh]

/-- Witness for C2: registering `al@x.com` twice on an empty store. -/
theorem second_registration_rejected_witness :
    (postHandler sampleCollaborators
      (postHandler sampleCollaborators [] boundaryRequest).store boundaryRequest).response =
      some ⟨400, .json (.obj [("msg", .str "User already exists!")])⟩ ∧
    countEmail (postHandler sampleCollaborators
      (postHandler sampleCollaborators [] boundaryRequest).store boundaryRequest).store
      "al@x.com" = 1 :=
  have hv : ValidInput sampleCollaborators.isEmail boundaryRequest :=
    ⟨⟨by decide, by decide⟩, by decide, by decide⟩
  have hs : Succeeds sampleCollaborators boundaryRequest :=
    ⟨rfl, ⟨_, _, rfl, rfl⟩, rfl, _, _, rfl, rfl⟩
  have h := second_registration_rejected sampleCollaborators sampleCollaborators []
    boundaryRequest boundaryRequest hv hv rfl (by simp) hs hs
  ⟨h.1, h.2.2.2⟩

/-- C3: a registration that passes validation, whose email is not yet in the store,
and for which lookup, salting, hashing, saving, reading the secret and signing all
succeed, is answered with status 200 and the body `{ msg, token }` and nothing else.
The token is what `jwt.sign` returned for the payload `{ user: { id } }` and the
expiry 86400, with `id` the `_id` of the record appended to the store.  The response
does not depend on the password or on its hash: any other acceptable password, with
any other hash function, gives the same response. -/
theorem successful_registration_response (c : Collaborators) (store : Store)
    (req : RegisterRequest) (salt hashed secret token : String)
    (hvalid : ValidInput c.isEmail req)
    (hfresh : findOne store req.email = none)
    (hlookup : c.findOneError = none)
    (hsalt : c.genSalt 10 = .ok salt) (hhash : c.hash req.password salt = .ok hashed)
    (hsave : c.saveError = none) (hsecret : c.jwtSecret = .ok secret)
    (hsign : c.sign { userId := c.newId } secret 86400 = .token token) :
    (postHandler c store req).response = some ⟨200, .json (.obj
      [("msg", .str "user registered successfully"), ("token", .str token)])⟩ ∧
    (∃ persisted id, (postHandler c store req).store = store ++ [persisted] ∧
      persisted.lookup "_id" = some id ∧
      c.sign { userId := id } secret 86400 = .token token ∧
      Call.sign { userId := id } secret 86400 ∈ (postHandler c store req).calls) ∧
    (∀ (hash2 : String → String → Except String String) (password2 hashed2 : String),
      8 ≤ validatorLength password2 → hash2 password2 salt = .ok hashed2 →
      (postHandler { c with hash := hash2 } store
        { req with password := password2 }).response =
        (postHandler c store req).response) := by
  have hnil := (validationResult_eq_nil_iff _ _).mpr hvalid
  have ho := (postHandler_of_valid c store req hnil).trans
    (saveInfo_success c store req salt hashed secret token hlookup hfresh hsalt hhash hsave
      hsecret hsign)
  refine ⟨by rw [ho], ⟨newUser c req hashed, c.newId, by rw [ho], by simp [newUser],
    hsign, by rw [ho]; simp⟩, ?_⟩
  intro hash2 password2 hashed2 hlen hhash2
  have hvalid2 : ValidInput c.isEmail { req with password := password2 } :=
    ⟨hvalid.1, hvalid.2.1, hlen⟩
  have hnil2 := (validationResult_eq_nil_iff _ _).mpr hvalid2
  have ho2 := (postHandler_of_valid { c with hash := hash2 } store
      { req with password := password2 } hnil2).trans
    (saveInfo_success { c with hash := hash2 } store { req with password := password2 }
      salt hashed2 secret token hlookup hfresh hsalt hhash2 hsave hsecret hsign)
  rw [ho, ho2]

/-- Witness for C3: a successful registration on the empty store. -/
theorem successful_registration_response_witness :
    (postHandler sampleCollaborators [] validRequest).response = some ⟨200, .json (.obj
      [("msg", .str "user registered successfully"), ("token", .str "6501.secret")])⟩ :=
  (successful_registration_response sampleCollaborators [] validRequest
    "$2a$10$salt" "$2a$10$salt#longenough" "secret" "6501.secret"
    ⟨⟨by decide, by decide⟩, by decide, by decide⟩ rfl rfl rfl rfl rfl rfl rfl).1

/-- C4: whenever the registration handler calls `save`, the record it passes carries
the name and email of the request body and, as password, the result of
`bcrypt.hash(password, salt)` where `salt` is the result of this request's
`bcrypt.genSalt(10)`; both calls precede `save` in the trace; and when the store
changes, it changes by exactly that record. -/
theorem saved_password_is_hashed (c : Collaborators) (store : Store)
    (req : RegisterRequest) (doc : Doc)
    (h : Call.save doc ∈ (postHandler c store req).calls) :
    ∃ salt hashed rest, c.genSalt 10 = .ok salt ∧ c.hash req.password salt = .ok hashed ∧
      doc = [("_id", c.newId), ("name", req.name), ("email", req.email),
        ("password", hashed)] ∧
      (postHandler c store req).calls =
        [.findOne req.email, .genSalt 10, .hash req.password salt, .save doc] ++ rest ∧
      ((postHandler c store req).store = store ∨
        (postHandler c store req).store = store ++ [doc]) := by
  by_cases hnil : validationResult c.isEmail req = []
  · rw [postHandler_of_valid c store req hnil] at h ⊢
    revert h
    unfold saveInfo
    repeat' split
    all_goals try dsimp only
    all_goals try split
    all_goals simp_all [serverError]
  · rw [postHandler_of_errors c store req hnil] at h
    simp at h

/-- Witness for C4: the record saved by a successful registration on the empty
store. -/
theorem saved_password_is_hashed_witness :
    ∃ salt hashed rest, sampleCollaborators.genSalt 10 = .ok salt ∧
      sampleCollaborators.hash validRequest.password salt = .ok hashed ∧
      [("_id", "6501"), ("name", "Al"), ("email", "al@x.com"),
        ("password", "$2a$10$salt#longenough")] =
        [("_id", sampleCollaborators.newId), ("name", validRequest.name),
          ("email", validRequest.email), ("password", hashed)] ∧
      (postHandler sampleCollaborators [] validRequest).calls =
        [.findOne validRequest.email, .genSalt 10, .hash validRequest.password salt,
          .save [("_id", "6501"), ("name", "Al"), ("email", "al@x.com"),
            ("password", "$2a$10$salt#longenough")]] ++ rest ∧
      ((postHandler sampleCollaborators [] validRequest).store = [] ∨
        (postHandler sampleCollaborators [] validRequest).store = [] ++
          [[("_id", "6501"), ("name", "Al"), ("email", "al@x.com"),
            ("password", "$2a$10$salt#longenough")]]) :=
  saved_password_is_hashed sampleCollaborators [] validRequest
    [("_id", "6501"), ("name", "Al"), ("email", "al@x.com"),
      ("password", "$2a$10$salt#longenough")] (by decide)

/-! ## Claims about failures -/

/-- The failures that the `catch` block does report: a rejected lookup, salt
generation, hashing or save, a throwing secret read, and a signing error passed to
the callback before `jwt.sign` returns are each answered with status 500 and the
fixed body `{ msg: "Something is wrong with the server" }`. -/
theorem failure_inside_try_reported (c : Collaborators) (store : Store)
    (req : RegisterRequest) (hvalid : ValidInput c.isEmail req) (err : String) :
    (c.findOneError = some err →
      (postHandler c store req).response = (serverError store [] err).response) ∧
    (c.findOneError = none → findOne store req.email = none →
      (c.genSalt 10 = .error err →
        (postHandler c store req).response = (serverError store [] err).response) ∧
      (∀ salt, c.genSalt 10 = .ok salt →
        (c.hash req.password salt = .error err →
          (postHandler c store req).response = (serverError store [] err).response) ∧
        (∀ hashed, c.hash req.password salt = .ok hashed →
          (c.saveError = some err →
            (postHandler c store req).response = (serverError store [] err).response) ∧
          (c.saveError = none →
            (c.jwtSecret = .error err →
              (postHandler c store req).response = (serverError store [] err).response) ∧
            (∀ secret, c.jwtSecret = .ok secret →
              c.sign { userId := c.newId } secret 86400 = .errorSync err →
              (postHandler c store req).response =
                (serverError store [] err).response))))) := by
  rw [postHandler_of_valid c store req ((validationResult_eq_nil_iff _ _).mpr hvalid)]
  refine ⟨fun h => by simp [saveInfo, serverError, h], fun hl hf =>
    ⟨fun h => by simp [saveInfo, serverError, hl, hf, h], fun salt hsalt =>
      ⟨fun h => by simp [saveInfo, serverError, hl, hf, hsalt, h], fun hashed hhash =>
        ⟨fun h => by simp [saveInfo, serverError, hl, hf, hsalt, hhash, h], fun hsave =>
          ⟨fun h => by simp [saveInfo, serverError, hl, hf, hsalt, hhash, hsave, h],
            fun secret hsecret h => by
              simp [saveInfo, serverError, hl, hf, hsalt, hhash, hsave, hsecret, h]⟩⟩⟩⟩⟩

/-- C5, the failing run: the request is valid and every collaborator succeeds up to
`jwt.sign`, whose signer passes an error to the callback after `jwt.sign` has
returned.  The callback's `throw` is then outside the `try` block: no response is
sent (in particular no 500), nothing is logged by the `catch` block, the exception
escapes, and the user record stays saved. -/
theorem sign_callback_error_not_reported :
    (postHandler signerFails [] validRequest).response = none ∧
    (postHandler signerFails [] validRequest).uncaught = some "something went wrong" ∧
    (∀ err, Call.consoleError err ∉ (postHandler signerFails [] validRequest).calls) ∧
    (postHandler signerFails [] validRequest).store =
      [[("_id", "6501"), ("name", "Al"), ("email", "al@x.com"),
        ("password", "$2a$10$salt#longenough")]] := by
  refine ⟨rfl, rfl, ?_, rfl⟩
  intro err
  have hcalls : (postHandler signerFails [] validRequest).calls =
      [.findOne "al@x.com", .genSalt 10, .hash "longenough" "$2a$10$salt",
        .save [("_id", "6501"), ("name", "Al"), ("email", "al@x.com"),
          ("password", "$2a$10$salt#longenough")],
        .configGet "jwtSecret", .sign { userId := "6501" } "secret" 86400] := rfl
  rw [hcalls]
  simp

/-- C6, counterexample: the request is valid, the record is saved, and then
`config.get("jwtSecret")` throws.  The handler answers 500, not 200, and the store
has changed: it holds the new record. -/
theorem secret_failure_leaves_record :
    (postHandler secretMissing [] validRequest).response =
      some ⟨500, .json (.obj [("msg", .str "Something is wrong with the server")])⟩ ∧
    (postHandler secretMissing [] validRequest).store =
      [[("_id", "6501"), ("name", "Al"), ("email", "al@x.com"),
        ("password", "$2a$10$salt#longenough")]] ∧
    (postHandler secretMissing [] validRequest).store ≠ [] := by
  refine ⟨rfl, rfl, ?_⟩
  have hstore : (postHandler secretMissing [] validRequest).store =
      [[("_id", "6501"), ("name", "Al"), ("email", "al@x.com"),
        ("password", "$2a$10$salt#longenough")]] := rfl
  rw [hstore]
  simp

/-- C6, amended: when reading the signing secret and signing the token both succeed,
a registration request that is not answered with status 200 leaves the store
unchanged; and in every case the store afterwards is either the store before or the
store before with the one saved record appended, the latter only if `save`
succeeded. -/
theorem store_unchanged_unless_signing_fails (c : Collaborators) (store : Store)
    (req : RegisterRequest) (secret token : String)
    (hsecret : c.jwtSecret = .ok secret)
    (hsign : c.sign { userId := c.newId } secret 86400 = .token token)
    (hresp : (postHandler c store req).response.map Response.status ≠ some 200) :
    (postHandler c store req).store = store ∧
    ∀ (c2 : Collaborators) (req2 : RegisterRequest),
      (postHandler c2 store req2).store = store ∨
      (c2.saveError = none ∧ ∃ hashed,
        (postHandler c2 store req2).store = store ++ [newUser c2 req2 hashed]) := by
  constructor
  · by_cases hnil : validationResult c.isEmail req = []
    · rw [postHandler_of_valid c store req hnil] at hresp ⊢
      revert hresp
      unfold saveInfo
      repeat' split
      all_goals try dsimp only
      all_goals try split
      all_goals simp_all [serverError]
    · rw [postHandler_of_errors c store req hnil]
  · intro c2 req2
    by_cases hnil : validationResult c2.isEmail req2 = []
    · rw [postHandler_of_valid c2 store req2 hnil]
      unfold saveInfo
      repeat' split
      all_goals try dsimp only
      all_goals try split
      all_goals simp_all [serverError, newUser]
    · rw [postHandler_of_errors c2 store req2 hnil]
      exact Or.inl rfl

/-- Witness for C6 as amended: `save` rejects, the handler answers 500 and the store
is unchanged. -/
theorem store_unchanged_unless_signing_fails_witness :
    (postHandler saveFails sampleStore newcomerRequest).response.map Response.status ≠
      some 200 ∧
    (postHandler saveFails sampleStore newcomerRequest).calls.getLast? =
      some (Call.consoleError "connection lost") ∧
    (postHandler saveFails sampleStore newcomerRequest).store = sampleStore :=
  ⟨by decide, by decide,
    (store_unchanged_unless_signing_fails saveFails sampleStore newcomerRequest "secret"
      "6501.secret" rfl rfl (by decide)).1⟩

/-! ## Claims about the profile handler -/

theorem lookup_selectMinusPassword_password (d : Doc) :
    (selectMinusPassword d).lookup "password" = none := by
  induction d with
  | nil => rfl
  | cons kv rest ih =>
    obtain ⟨k, v⟩ := kv
    by_cases hk : k = "password"
    · subst hk
      simpa [selectMinusPassword] using ih
    · have hne : ("password" == k) = false := by simpa using fun h => hk h.symm
      simpa [selectMinusPassword, hk, List.lookup, hne] using ih

theorem lookup_selectMinusPassword_of_ne (d : Doc) (key : String) (hkey : key ≠ "password") :
    (selectMinusPassword d).lookup key = d.lookup key := by
  induction d with
  | nil => rfl
  | cons kv rest ih =>
    obtain ⟨k, v⟩ := kv
    by_cases hk : k = "password"
    · subst hk
      have hne : (key == "password") = false := by simpa using hkey
      simpa [selectMinusPassword, List.lookup, hne] using ih
    · by_cases hkk : key = k
      · subst hkk
        simp [selectMinusPassword, hk, List.lookup]
      · have hne : (key == k) = false := by simpa using hkk
        simpa [selectMinusPassword, hk, List.lookup, hne] using ih

theorem findById_of_unique (store : Store) (id : String) (user : Doc)
    (hmem : user ∈ store) (hid : user.lookup "_id" = some id)
    (hunique : ∀ other ∈ store, other.lookup "_id" = some id → other = user) :
    findById store id = some user := by
  unfold findById
  induction store with
  | nil => simp at hmem
  | cons d rest ih =>
    by_cases hd : d.lookup "_id" = some id
    · have : d = user := hunique d (by simp) hd
      subst this
      simp [List.find?, hd]
    · have hmem2 : user ∈ rest := by
        rcases List.mem_cons.mp hmem with h | h
        · exact absurd (h ▸ hid) hd
        · exact h
      have hd2 : (d.lookup "_id" == some id) = false := by simpa using hd
      rw [List.find?, hd2]
      exact ih hmem2 (fun other ho => hunique other (List.mem_cons_of_mem _ ho))

/-- C7: when `req.user.id` is the id of the user record `user` of the store (the only
record with that id) and the lookup succeeds, the profile handler answers with
status 200 and the JSON rendering of that record without its `password` field:
the body has no `password` key, every other field of the record is returned
unchanged, nothing is returned that is not a field of that record, and the store is
unchanged. -/
theorem profile_is_record_without_password (store : Store) (id : String) (user : Doc)
    (hmem : user ∈ store) (hid : user.lookup "_id" = some id)
    (hunique : ∀ other ∈ store, other.lookup "_id" = some id → other = user) :
    findById store id = some user ∧
    (getHandler none store id).response =
      some ⟨200, .json (docToJson (selectMinusPassword user))⟩ ∧
    (selectMinusPassword user).lookup "password" = none ∧
    (∀ key, key ≠ "password" → (selectMinusPassword user).lookup key = user.lookup key) ∧
    (∀ field ∈ selectMinusPassword user, field ∈ user ∧ field.1 ≠ "password") ∧
    (∀ field ∈ user, field.1 ≠ "password" → field ∈ selectMinusPassword user) ∧
    (getHandler none store id).store = store := by
  have hfound := findById_of_unique store id user hmem hid hunique
  refine ⟨hfound, by simp [getHandler, hfound], lookup_selectMinusPassword_password user,
    lookup_selectMinusPassword_of_ne user, ?_, ?_, by simp [getHandler, hfound]⟩
  · intro field hfield
    simpa [selectMinusPassword] using hfield
  · intro field hfield hne
    simpa [selectMinusPassword] using ⟨hfield, hne⟩

/-- Witness for C7: the profile of user `6502` in the sample store. -/
theorem profile_is_record_without_password_witness :
    (getHandler none sampleStore "6502").response =
      some ⟨200, .json (.obj [("_id", .str "6502"), ("name", .str "Bo"),
        ("email", .str "bo@x.com")])⟩ :=
  (profile_is_record_without_password sampleStore "6502"
    [("_id", "6502"), ("name", "Bo"), ("email", "bo@x.com"), ("password", "$2a$10$h2")]
    (by decide) (by decide) (by decide)).2.1

/-- C8, counterexample: when the lookup fails the body of the 500 response is the
plain text `Server error`, not a JSON object `{ msg }`, and it differs from the body
of the registration handler's 500 response. -/
theorem profile_error_body_not_msg_object :
    (getHandler (some "connection lost") sampleStore "6501").response =
      some ⟨500, .text "Server error"⟩ ∧
    (¬ ∃ j, (getHandler (some "connection lost") sampleStore "6501").response =
      some ⟨500, .json j⟩) ∧
    (getHandler (some "connection lost") sampleStore "6501").response ≠
      (serverError sampleStore [] "connection lost").response := by
  refine ⟨rfl, ?_, ?_⟩
  · rintro ⟨j, hj⟩
    simp [getHandler] at hj
  · simp [getHandler, serverError]

/-- C8, amended: whenever the user lookup fails, whatever the error, the profile
handler answers with status 500 and the fixed plain-text body `Server error`; the
error itself goes to the log and not into the response, and the store is unchanged. -/
theorem profile_lookup_failure (store : Store) (id err : String) :
    (getHandler (some err) store id).response = some ⟨500, .text "Server error"⟩ ∧
    (getHandler (some err) store id).calls = [.findById id, .consoleError err] ∧
    (getHandler (some err) store id).store = store :=
  ⟨rfl, rfl, rfl⟩

/-- C10: when `req.user.id` matches no record of the store and the lookup itself
succeeds, the profile handler answers with status 200 and the JSON body `null`; the
status is none of 401, 404, 500. -/
theorem profile_of_missing_user (store : Store) (id : String)
    (hmissing : ∀ d ∈ store, d.lookup "_id" ≠ some id) :
    findById store id = none ∧
    (getHandler none store id).response = some ⟨200, .json .null⟩ ∧
    (getHandler none store id).response.map Response.status ≠ some 401 ∧
    (getHandler none store id).response.map Response.status ≠ some 404 ∧
    (getHandler none store id).response.map Response.status ≠ some 500 := by
  have hnone : findById store id = none := by
    simpa [findById, List.find?_eq_none] using hmissing
  simp [getHandler, hnone]

/-- Witness for C10: id `6599` is not in the sample store. -/
theorem profile_of_missing_user_witness :
    (getHandler none sampleStore "6599").response = some ⟨200, .json .null⟩ :=
  (profile_of_missing_user sampleStore "6599" (by decide)).2.1

end Users
